import Mathlib

/-!
Verification development for the Infinite Craft proxy server
(`src/proxy-server.js`).  The JavaScript request handlers are shallowly
embedded as pure Lean functions over explicit state: the in-memory
`discoveryTracker` `Map` becomes an association list, each Express route
handler becomes a function from its inputs (request body values, path
parameter, environment, upstream behaviour) to an HTTP response, and the
rate-limiter bookkeeping becomes explicit window state threaded through a
server-state record.
-/

namespace Proxy

/-- A JavaScript value as it can appear in a parsed JSON request body.
Request-body fields reaching the handlers are one of these; a missing
field is `Option.none` at the use sites (JS `undefined`). -/
inductive JSVal where
  | str (s : String)
  | num (n : Int)
  | bool (b : Bool)
  | null
deriving DecidableEq, Repr

/-- JS truthiness of a request-body field (`!item`): `undefined`, `null`,
`""`, `0` and `false` are falsy. -/
def jsFalsy : Option JSVal → Bool
  | none => true
  | some (.str s) => s = ""
  | some (.num n) => n = 0
  | some (.bool b) => !b
  | some .null => true

/-- A JSON value, the result of `JSON.parse` and the shape of every
response body the server sends via `res.json`.  Objects keep their fields
in insertion order with unique keys (as `JSON.parse` produces: a duplicate
key keeps its first position and last value). -/
inductive JsonV where
  | null
  | bool (b : Bool)
  | num (raw : String)
  | str (s : String)
  | arr (elems : List JsonV)
  | obj (fields : List (String × JsonV))

/-- An HTTP response: status code and JSON body. -/
structure HttpResp where
  status : Nat
  body : JsonV

/-- Body `{error: msg}` used by every error response of the server. -/
def errObj (msg : String) : JsonV := .obj [("error", .str msg)]

/-- A JSON number literal for a natural number, as `res.json` serializes
the counts. -/
def natJson (n : Nat) : JsonV := .num (toString n)

/-- Model of `Map.prototype.set` on a string-keyed map as an association
list: replace the value at an existing key in place, else append. -/
def assocSet {α : Type} : List (String × α) → String → α → List (String × α)
  | [], k, v => [(k, v)]
  | (k', v') :: rest, k, v =>
    if k' = k then (k, v) :: rest else (k', v') :: assocSet rest k v

/-- Model of `Map.prototype.get`: `List.lookup` on the association list. -/
def assocGet {α : Type} (m : List (String × α)) (k : String) : Option α :=
  m.lookup k

theorem assocGet_nil {α : Type} (k : String) : assocGet ([] : List (String × α)) k = none :=
  rfl

theorem assocGet_cons {α : Type} (k0 : String) (v0 : α) (tl : List (String × α)) (k : String) :
    assocGet ((k0, v0) :: tl) k = if k = k0 then some v0 else assocGet tl k := by
  by_cases h : k = k0
  · simp [assocGet, List.lookup, h]
  · have hb : (k == k0) = false := by simp [h]
    simp [assocGet, List.lookup, hb, h]

theorem assocGet_assocSet_self {α : Type} (m : List (String × α)) (k : String) (v : α) :
    assocGet (assocSet m k v) k = some v := by
  induction m with
  | nil => simp [assocSet, assocGet_cons]
  | cons hd tl ih =>
    obtain ⟨k', v'⟩ := hd
    by_cases h : k' = k
    · subst h
      simp [assocSet, assocGet_cons]
    · simp [assocSet, h, assocGet_cons, Ne.symm h, ih]

theorem assocGet_assocSet_ne {α : Type} (m : List (String × α)) (k k' : String) (v : α)
    (h : k' ≠ k) : assocGet (assocSet m k v) k' = assocGet m k' := by
  induction m with
  | nil => simp [assocSet, assocGet_cons, assocGet_nil, h]
  | cons hd tl ih =>
    obtain ⟨k0, v0⟩ := hd
    by_cases h0 : k0 = k
    · subst h0
      simp [assocSet, assocGet_cons, h]
    · by_cases h1 : k' = k0
      · subst h1
        simp [assocSet, h0, assocGet_cons]
      · simp [assocSet, h0, assocGet_cons, h1, ih]

theorem assocSet_assocSet {α : Type} (m : List (String × α)) (k : String) (v w : α) :
    assocSet (assocSet m k v) k w = assocSet m k w := by
  induction m with
  | nil => simp [assocSet]
  | cons hd tl ih =>
    obtain ⟨k0, v0⟩ := hd
    by_cases h0 : k0 = k
    · subst h0
      simp [assocSet]
    · simp [assocSet, h0, ih]

theorem assocSet_self_of_assocGet {α : Type} (m : List (String × α)) (k : String) (v : α)
    (h : assocGet m k = some v) : assocSet m k v = m := by
  induction m with
  | nil => simp [assocGet_nil] at h
  | cons hd tl ih =>
    obtain ⟨k0, v0⟩ := hd
    by_cases h0 : k0 = k
    · subst h0
      rw [assocGet_cons, if_pos rfl] at h
      cases h
      simp [assocSet]
    · rw [assocGet_cons, if_neg (Ne.symm h0)] at h
      simp [assocSet, h0, ih h]

/-- Model of `String.prototype.toLowerCase` restricted to its effect on the ASCII
range (the only case-mapping the proxy's inputs exercise): `A`–`Z` map to
`a`–`z`, every other character is unchanged. -/
def jsToLowerChar (c : Char) : Char :=
  if 'A' ≤ c ∧ c ≤ 'Z' then Char.ofNat (c.toNat + 32) else c

/-- Lowercasing (`item.toLowerCase()`) of a whole string. -/
def jsToLower (s : String) : String := String.mk (s.data.map jsToLowerChar)

/-- The UTF-16 length of a JS string (`String.prototype.length`): code
points above `U+FFFF` count as two units (a surrogate pair). -/
def utf16Len (s : String) : Nat :=
  (s.data.map (fun c => if c.toNat < 0x10000 then 1 else 2)).sum

/-- One hex digit of a percent escape (digits, then upper and lower
`A`–`F`, by code point). -/
def hexDigit (c : Char) : Option Nat :=
  let n := c.toNat
  if 48 ≤ n ∧ n ≤ 57 then some (n - 48)
  else if 65 ≤ n ∧ n ≤ 70 then some (n - 55)
  else if 97 ≤ n ∧ n ≤ 102 then some (n - 87)
  else none

/-- Read one `%XX` escape whose byte must lie in `[lo, hi]` (used for the
UTF-8 continuation bytes of `decodeURIComponent`). -/
def pctByteIn (lo hi : Nat) : List Char → Option (Nat × List Char)
  | '%' :: a :: b :: rest =>
    match hexDigit a, hexDigit b with
    | some x, some y =>
      let n := 16 * x + y
      if lo ≤ n ∧ n ≤ hi then some (n, rest) else none
    | _, _ => none
  | _ => none

/-- Decode the continuation of a multi-byte UTF-8 sequence begun by lead
byte `b`, enforcing the shortest-form and surrogate-exclusion ranges that
`decodeURIComponent` enforces; yields the code point and remaining input. -/
def utf8Tail (b : Nat) (cs : List Char) : Option (Nat × List Char) :=
  if 0xC2 ≤ b ∧ b ≤ 0xDF then do
    let (c1, r) ← pctByteIn 0x80 0xBF cs
    pure ((b - 0xC0) * 64 + (c1 - 0x80), r)
  else if b = 0xE0 then do
    let (c1, r) ← pctByteIn 0xA0 0xBF cs
    let (c2, r) ← pctByteIn 0x80 0xBF r
    pure ((b - 0xE0) * 4096 + (c1 - 0x80) * 64 + (c2 - 0x80), r)
  else if (0xE1 ≤ b ∧ b ≤ 0xEC) ∨ b = 0xEE ∨ b = 0xEF then do
    let (c1, r) ← pctByteIn 0x80 0xBF cs
    let (c2, r) ← pctByteIn 0x80 0xBF r
    pure ((b - 0xE0) * 4096 + (c1 - 0x80) * 64 + (c2 - 0x80), r)
  else if b = 0xED then do
    let (c1, r) ← pctByteIn 0x80 0x9F cs
    let (c2, r) ← pctByteIn 0x80 0xBF r
    pure ((b - 0xE0) * 4096 + (c1 - 0x80) * 64 + (c2 - 0x80), r)
  else if b = 0xF0 then do
    let (c1, r) ← pctByteIn 0x90 0xBF cs
    let (c2, r) ← pctByteIn 0x80 0xBF r
    let (c3, r) ← pctByteIn 0x80 0xBF r
    pure ((b - 0xF0) * 262144 + (c1 - 0x80) * 4096 + (c2 - 0x80) * 64 + (c3 - 0x80), r)
  else if 0xF1 ≤ b ∧ b ≤ 0xF3 then do
    let (c1, r) ← pctByteIn 0x80 0xBF cs
    let (c2, r) ← pctByteIn 0x80 0xBF r
    let (c3, r) ← pctByteIn 0x80 0xBF r
    pure ((b - 0xF0) * 262144 + (c1 - 0x80) * 4096 + (c2 - 0x80) * 64 + (c3 - 0x80), r)
  else if b = 0xF4 then do
    let (c1, r) ← pctByteIn 0x80 0x8F cs
    let (c2, r) ← pctByteIn 0x80 0xBF r
    let (c3, r) ← pctByteIn 0x80 0xBF r
    pure ((b - 0xF0) * 262144 + (c1 - 0x80) * 4096 + (c2 - 0x80) * 64 + (c3 - 0x80), r)
  else none

/-- Character-by-character worker for `decodeURIComponent`; `fuel` bounds
recursion (each step consumes at least one input character). `none` means
the JS function throws `URIError`. -/
def decodeURIChars : Nat → List Char → Option (List Char)
  | 0, _ => none
  | _ + 1, [] => some []
  | fuel + 1, c :: rest =>
    if c = '%' then
      match pctByteIn 0 0xFF (c :: rest) with
      | none => none
      | some (b, rest1) =>
        if b < 0x80 then
          (Char.ofNat b :: ·) <$> decodeURIChars fuel rest1
        else
          match utf8Tail b rest1 with
          | none => none
          | some (cp, rest2) => (Char.ofNat cp :: ·) <$> decodeURIChars fuel rest2
    else
      (c :: ·) <$> decodeURIChars fuel rest

/-- Model of `decodeURIComponent`: percent-decode the string, requiring every
escape run to form valid UTF-8; throws (`Except.error`) `URI malformed`
otherwise. -/
def decodeURIComponent (s : String) : Except String String :=
  match decodeURIChars (s.data.length + 1) s.data with
  | some cs => .ok (String.mk cs)
  | none => .error "URI malformed"

/-- The in-memory `discoveryTracker` map: normalized item name to count. -/
abbrev DiscMap := List (String × Nat)

/-- The `POST /api/track-discovery` handler (`src/proxy-server.js` lines
47–72): reject falsy `item`, then non-string or `.length > 100`; else
lowercase the item, increment its count and answer
`{success: true, count}`. -/
def trackDiscoveryHandler (m : DiscMap) (item : Option JSVal) : DiscMap × HttpResp :=
  if jsFalsy item then
    (m, ⟨400, errObj "item is required"⟩)
  else
    match item with
    | some (.str s) =>
      if utf16Len s > 100 then (m, ⟨400, errObj "Invalid item name"⟩)
      else
        let itemKey := jsToLower s
        let currentCount := (assocGet m itemKey).getD 0
        (assocSet m itemKey (currentCount + 1),
         ⟨200, .obj [("success", .bool true), ("count", natJson (currentCount + 1))]⟩)
    | _ => (m, ⟨400, errObj "Invalid item name"⟩)

/-- The `GET /api/discovery-count/:item` handler (`src/proxy-server.js`
lines 75–93): decode the path parameter (a throw is caught and answered
with 500 `{error: message}`), lowercase it, reject keys longer than 100,
else answer `{count}` with 0 for unseen keys. -/
def discoveryCountHandler (m : DiscMap) (item : String) : HttpResp :=
  match decodeURIComponent item with
  | .error msg => ⟨500, errObj msg⟩
  | .ok dec =>
    let itemKey := jsToLower dec
    if utf16Len itemKey > 100 then ⟨400, errObj "Invalid item name"⟩
    else ⟨200, .obj [("count", natJson ((assocGet m itemKey).getD 0))]⟩

/-- JSON whitespace accepted by `JSON.parse` between tokens. -/
def isJsonWsChar (c : Char) : Bool :=
  c = ' ' || c = '\t' || c = '\n' || c = '\r'

/-- Skip JSON inter-token whitespace. -/
def skipJsonWs (cs : List Char) : List Char := cs.dropWhile isJsonWsChar

/-- Four hex digits of a `\uXXXX` escape. -/
def hex4 : List Char → Option (Nat × List Char)
  | a :: b :: c :: d :: rest => do
    let x ← hexDigit a
    let y ← hexDigit b
    let z ← hexDigit c
    let w ← hexDigit d
    pure (4096 * x + 256 * y + 16 * z + w, rest)
  | _ => none

/-- Parse the body of a JSON string literal after the opening quote,
handling the escape sequences `JSON.parse` accepts and rejecting raw
control characters; returns the decoded characters and the input after
the closing quote.  (`\u` surrogate escapes must pair up: a lone
surrogate, legal in a JS string, has no scalar-value counterpart here.) -/
def parseStringBody : Nat → List Char → Option (List Char × List Char)
  | 0, _ => none
  | _ + 1, [] => none
  | fuel + 1, c :: rest =>
    if c = '"' then some ([], rest)
    else if c = '\\' then
      match rest with
      | [] => none
      | e :: rest1 =>
        if e = '"' then (fun p => ('"' :: p.1, p.2)) <$> parseStringBody fuel rest1
        else if e = '\\' then (fun p => ('\\' :: p.1, p.2)) <$> parseStringBody fuel rest1
        else if e = '/' then (fun p => ('/' :: p.1, p.2)) <$> parseStringBody fuel rest1
        else if e = 'b' then (fun p => ('\x08' :: p.1, p.2)) <$> parseStringBody fuel rest1
        else if e = 'f' then (fun p => ('\x0c' :: p.1, p.2)) <$> parseStringBody fuel rest1
        else if e = 'n' then (fun p => ('\n' :: p.1, p.2)) <$> parseStringBody fuel rest1
        else if e = 'r' then (fun p => ('\r' :: p.1, p.2)) <$> parseStringBody fuel rest1
        else if e = 't' then (fun p => ('\t' :: p.1, p.2)) <$> parseStringBody fuel rest1
        else if e = 'u' then
          match hex4 rest1 with
          | none => none
          | some (n, rest2) =>
            if n < 0xD800 ∨ 0xDFFF < n then
              (fun p => (Char.ofNat n :: p.1, p.2)) <$> parseStringBody fuel rest2
            else if n ≤ 0xDBFF then
              match rest2 with
              | '\\' :: 'u' :: rest3 =>
                match hex4 rest3 with
                | some (m, rest4) =>
                  if 0xDC00 ≤ m ∧ m ≤ 0xDFFF then
                    (fun p => (Char.ofNat (0x10000 + (n - 0xD800) * 1024 + (m - 0xDC00)) :: p.1, p.2))
                      <$> parseStringBody fuel rest4
                  else none
                | none => none
              | _ => none
            else none
        else none
    else if c.toNat < 0x20 then none
    else (fun p => (c :: p.1, p.2)) <$> parseStringBody fuel rest

/-- Fraction part of a JSON number (possibly empty). -/
def parseFrac : List Char → Option (List Char × List Char)
  | '.' :: r =>
    let fd := r.takeWhile Char.isDigit
    if fd.isEmpty then none else some ('.' :: fd, r.drop fd.length)
  | cs => some ([], cs)

/-- Exponent part of a JSON number (possibly empty). -/
def parseExp : List Char → Option (List Char × List Char)
  | [] => some ([], [])
  | e :: r =>
    if e = 'e' ∨ e = 'E' then
      let (sg, r1) : List Char × List Char :=
        match r with
        | '+' :: rr => (['+'], rr)
        | '-' :: rr => (['-'], rr)
        | _ => ([], r)
      let ed := r1.takeWhile Char.isDigit
      if ed.isEmpty then none else some (e :: (sg ++ ed), r1.drop ed.length)
    else some ([], e :: r)

/-- Parse a JSON number, returning its raw lexeme (numbers are never
computed with by the server, only truth-tested and re-serialized). -/
def parseNumber (cs : List Char) : Option (List Char × List Char) :=
  let (sign, cs1) : List Char × List Char :=
    match cs with
    | '-' :: r => (['-'], r)
    | _ => ([], cs)
  match cs1 with
  | [] => none
  | d :: _ =>
    if d.isDigit then
      let ip := if d = '0' then ['0'] else cs1.takeWhile Char.isDigit
      let rest1 := cs1.drop ip.length
      match parseFrac rest1 with
      | none => none
      | some (fr, rest2) =>
        match parseExp rest2 with
        | none => none
        | some (ex, rest3) => some (sign ++ ip ++ fr ++ ex, rest3)
    else none

mutual

/-- Parse one JSON value (`JSON.parse` grammar), fuelled. -/
def parseVal : Nat → List Char → Option (JsonV × List Char)
  | 0, _ => none
  | fuel + 1, cs =>
    match skipJsonWs cs with
    | [] => none
    | c :: rest =>
      if c = '{' then
        match skipJsonWs rest with
        | '}' :: rest1 => some (.obj [], rest1)
        | cs1 => parseMembers fuel cs1 []
      else if c = '[' then
        match skipJsonWs rest with
        | ']' :: rest1 => some (.arr [], rest1)
        | cs1 => parseElems fuel cs1 []
      else if c = '"' then
        (fun p => (JsonV.str (String.mk p.1), p.2)) <$> parseStringBody (rest.length + 1) rest
      else if c = 't' then
        match rest with
        | 'r' :: 'u' :: 'e' :: r => some (.bool true, r)
        | _ => none
      else if c = 'f' then
        match rest with
        | 'a' :: 'l' :: 's' :: 'e' :: r => some (.bool false, r)
        | _ => none
      else if c = 'n' then
        match rest with
        | 'u' :: 'l' :: 'l' :: r => some (.null, r)
        | _ => none
      else
        (fun p => (JsonV.num (String.mk p.1), p.2)) <$> parseNumber (c :: rest)

/-- Parse the members of a JSON object from the start of a key; duplicate
keys collapse as in `JSON.parse` (first position, last value), which
`assocSet` implements. -/
def parseMembers : Nat → List Char → List (String × JsonV) → Option (JsonV × List Char)
  | 0, _, _ => none
  | fuel + 1, cs, acc =>
    match cs with
    | '"' :: rest =>
      match parseStringBody (rest.length + 1) rest with
      | none => none
      | some (key, r1) =>
        match skipJsonWs r1 with
        | ':' :: r2 =>
          match parseVal fuel r2 with
          | none => none
          | some (v, r3) =>
            let acc1 := assocSet acc (String.mk key) v
            match skipJsonWs r3 with
            | ',' :: r4 => parseMembers fuel (skipJsonWs r4) acc1
            | '}' :: r4 => some (.obj acc1, r4)
            | _ => none
        | _ => none
    | _ => none

/-- Parse the elements of a JSON array from the start of a value. -/
def parseElems : Nat → List Char → List JsonV → Option (JsonV × List Char)
  | 0, _, _ => none
  | fuel + 1, cs, acc =>
    match parseVal fuel cs with
    | none => none
    | some (v, r1) =>
      match skipJsonWs r1 with
      | ',' :: r2 => parseElems fuel r2 (acc ++ [v])
      | ']' :: r2 => some (.arr (acc ++ [v]), r2)
      | _ => none

end

/-- Model of `JSON.parse`: parse one value and require only whitespace after it. -/
def jsonParse (s : String) : Option JsonV :=
  match parseVal (s.data.length + 1) s.data with
  | some (v, rest) => if (skipJsonWs rest).isEmpty then some v else none
  | none => none

/-- JS property read `result.k` on a parsed JSON value: `undefined`
(`none`) unless the value is an object with that key. -/
def jGet (v : JsonV) (k : String) : Option JsonV :=
  match v with
  | .obj f => assocGet f k
  | _ => none

/-- JS property write `result.k = w` (only reached on objects). -/
def jSet (v : JsonV) (k : String) (w : JsonV) : JsonV :=
  match v with
  | .obj f => .obj (assocSet f k w)
  | other => other

/-- Whether a JSON number lexeme denotes zero (its mantissa has no
nonzero digit). -/
def numIsZero (raw : String) : Bool :=
  ((raw.data.takeWhile (fun c => !(c = 'e' || c = 'E'))).filter
    (fun c => decide ('1' ≤ c) && decide (c ≤ '9'))).isEmpty

/-- JS truthiness of a property-read result (`!result.name`):
`undefined`, `null`, `""`, `0` and `false` are falsy; every object and
array is truthy. -/
def jsTruthy : Option JsonV → Bool
  | none => false
  | some .null => false
  | some (.bool b) => b
  | some (.str s) => !(s == "")
  | some (.num raw) => !(numIsZero raw)
  | some (.arr _) => true
  | some (.obj _) => true

/-- The whitespace class of JS `String.prototype.trim` and of `\s` in a
(non-`u`) JS regular expression. -/
def isJsWs (c : Char) : Bool :=
  c = ' ' || c = '\t' || c = '\n' || c = '\r' || c = '\x0b' || c = '\x0c' ||
  c.toNat = 0xA0 || c.toNat = 0x1680 ||
  (decide (0x2000 ≤ c.toNat) && decide (c.toNat ≤ 0x200A)) ||
  c.toNat = 0x2028 || c.toNat = 0x2029 || c.toNat = 0x202F || c.toNat = 0x205F ||
  c.toNat = 0x3000 || c.toNat = 0xFEFF

/-- Model of `String.prototype.trim`. -/
def jsTrim (s : String) : String :=
  String.mk (((s.data.dropWhile isJsWs).reverse.dropWhile isJsWs).reverse)

/-- The backquote character (`U+0060`). -/
def backquote : Char := Char.ofNat 96

/-- The three-backquote fence delimiter of the extraction regex. -/
def fenceToken : List Char := [backquote, backquote, backquote]

/-- Substring test (`content.includes(token)`) on character lists. -/
def hasSub (token : List Char) : List Char → Bool
  | [] => token.isEmpty
  | c :: rest => token.isPrefixOf (c :: rest) || hasSub token rest

/-- The lazy capture group of the extraction regex: the characters up to
the first closing fence, or `none` when no closing fence follows. -/
def splitAtFence : List Char → Option (List Char)
  | [] => none
  | c :: rest =>
    if fenceToken.isPrefixOf (c :: rest) then some []
    else (fun l => c :: l) <$> splitAtFence rest

/-- Continue the extraction regex just after an opening fence: the
optional `json` tag, then greedy `\s*`, then the lazy capture up to a
closing fence. -/
def fenceAt (cs : List Char) : Option (List Char) :=
  let cs1 := if ['j', 's', 'o', 'n'].isPrefixOf cs then cs.drop 4 else cs
  splitAtFence (cs1.dropWhile isJsWs)

/-- Leftmost match of the fenced-code-block regex
(three backquotes, optional `json`, `\s*`, lazy any-character capture,
three backquotes), returning the capture group. -/
def fenceSearch : List Char → Option (List Char)
  | [] => none
  | c :: rest =>
    if fenceToken.isPrefixOf (c :: rest) then
      match fenceAt ((c :: rest).drop 3) with
      | some cap => some cap
      | none => fenceSearch rest
    else fenceSearch rest

/-- The fence-extraction step of the craft handler
(`src/proxy-server.js` lines 244–250): if the trimmed content contains a
fence marker and the regex matches, use the trimmed capture, else the
content itself. -/
def extractJsonStr (content : String) : String :=
  if hasSub fenceToken content.data then
    match fenceSearch content.data with
    | some cap => jsTrim (String.mk cap)
    | none => content
  else content

/-- Code-point ranges with the Unicode `Emoji_Presentation` property
(from Unicode `emoji-data`), matched by `\p\x7bEmoji_Presentation\x7d`. -/
def emojiPresentationRanges : List (Nat × Nat) :=
  [(0x231A, 0x231B), (0x23E9, 0x23EC), (0x23F0, 0x23F0), (0x23F3, 0x23F3),
   (0x25FD, 0x25FE), (0x2614, 0x2615), (0x2648, 0x2653), (0x267F, 0x267F),
   (0x2693, 0x2693), (0x26A1, 0x26A1), (0x26AA, 0x26AB), (0x26BD, 0x26BE),
   (0x26C4, 0x26C5), (0x26CE, 0x26CE), (0x26D4, 0x26D4), (0x26EA, 0x26EA),
   (0x26F2, 0x26F3), (0x26F5, 0x26F5), (0x26FA, 0x26FA), (0x26FD, 0x26FD),
   (0x2705, 0x2705), (0x270A, 0x270B), (0x2728, 0x2728), (0x274C, 0x274C),
   (0x274E, 0x274E), (0x2753, 0x2755), (0x2757, 0x2757), (0x2795, 0x2797),
   (0x27B0, 0x27B0), (0x27BF, 0x27BF), (0x2B1B, 0x2B1C), (0x2B50, 0x2B50),
   (0x2B55, 0x2B55), (0x1F004, 0x1F004), (0x1F0CF, 0x1F0CF), (0x1F18E, 0x1F18E),
   (0x1F191, 0x1F19A), (0x1F1E6, 0x1F1FF), (0x1F201, 0x1F201), (0x1F21A, 0x1F21A),
   (0x1F22F, 0x1F22F), (0x1F232, 0x1F236), (0x1F238, 0x1F23A), (0x1F250, 0x1F251),
   (0x1F300, 0x1F320), (0x1F32D, 0x1F335), (0x1F337, 0x1F37C), (0x1F37E, 0x1F393),
   (0x1F3A0, 0x1F3CA), (0x1F3CF, 0x1F3D3), (0x1F3E0, 0x1F3F0), (0x1F3F4, 0x1F3F4),
   (0x1F3F8, 0x1F43E), (0x1F440, 0x1F440), (0x1F442, 0x1F4FC), (0x1F4FF, 0x1F53D),
   (0x1F54B, 0x1F54E), (0x1F550, 0x1F567), (0x1F57A, 0x1F57A), (0x1F595, 0x1F596),
   (0x1F5A4, 0x1F5A4), (0x1F5FB, 0x1F64F), (0x1F680, 0x1F6C5), (0x1F6CC, 0x1F6CC),
   (0x1F6D0, 0x1F6D2), (0x1F6D5, 0x1F6D7), (0x1F6DC, 0x1F6DF), (0x1F6EB, 0x1F6EC),
   (0x1F6F4, 0x1F6FC), (0x1F7E0, 0x1F7EB), (0x1F7F0, 0x1F7F0), (0x1F90C, 0x1F93A),
   (0x1F93C, 0x1F945), (0x1F947, 0x1F9FF), (0x1FA70, 0x1FA7C), (0x1FA80, 0x1FA89),
   (0x1FA8F, 0x1FAC6), (0x1FACE, 0x1FADC), (0x1FADF, 0x1FAE9), (0x1FAF0, 0x1FAF8)]

/-- The regex class `\p\x7bEmoji_Presentation\x7d` as a character test. -/
def isEmojiPresentation (c : Char) : Bool :=
  emojiPresentationRanges.any (fun p => decide (p.1 ≤ c.toNat) && decide (c.toNat ≤ p.2))

/-- Code-point ranges with the `Emoji` property but not
`Emoji_Presentation` (text-default emoji; from Unicode `emoji-data`). -/
def emojiTextDefaultRanges : List (Nat × Nat) :=
  [(0x23, 0x23), (0x2A, 0x2A), (0x30, 0x39), (0xA9, 0xA9), (0xAE, 0xAE),
   (0x203C, 0x203C), (0x2049, 0x2049), (0x2122, 0x2122), (0x2139, 0x2139),
   (0x2194, 0x2199), (0x21A9, 0x21AA), (0x2328, 0x2328), (0x23CF, 0x23CF),
   (0x23ED, 0x23EF), (0x23F1, 0x23F2), (0x23F8, 0x23FA), (0x24C2, 0x24C2),
   (0x25AA, 0x25AB), (0x25B6, 0x25B6), (0x25C0, 0x25C0), (0x25FB, 0x25FC),
   (0x2600, 0x2604), (0x260E, 0x260E), (0x2611, 0x2611), (0x2618, 0x2618),
   (0x261D, 0x261D), (0x2620, 0x2620), (0x2622, 0x2623), (0x2626, 0x2626),
   (0x262A, 0x262A), (0x262E, 0x262F), (0x2638, 0x263A), (0x2640, 0x2640),
   (0x2642, 0x2642), (0x265F, 0x2660), (0x2663, 0x2663), (0x2665, 0x2666),
   (0x2668, 0x2668), (0x267B, 0x267B), (0x267E, 0x267E), (0x2692, 0x2692),
   (0x2694, 0x2697), (0x2699, 0x2699), (0x269B, 0x269C), (0x26A0, 0x26A0),
   (0x26A7, 0x26A7), (0x26B0, 0x26B1), (0x26C8, 0x26C8), (0x26CF, 0x26CF),
   (0x26D1, 0x26D1), (0x26D3, 0x26D3), (0x26E9, 0x26E9), (0x26F0, 0x26F1),
   (0x26F4, 0x26F4), (0x26F7, 0x26F9), (0x2702, 0x2702), (0x2708, 0x2709),
   (0x270C, 0x270D), (0x270F, 0x270F), (0x2712, 0x2712), (0x2714, 0x2714),
   (0x2716, 0x2716), (0x271D, 0x271D), (0x2721, 0x2721), (0x2733, 0x2734),
   (0x2744, 0x2744), (0x2747, 0x2747), (0x2763, 0x2764), (0x27A1, 0x27A1),
   (0x2934, 0x2935), (0x2B05, 0x2B07), (0x3030, 0x3030), (0x303D, 0x303D),
   (0x3297, 0x3297), (0x3299, 0x3299), (0x1F170, 0x1F171), (0x1F17E, 0x1F17F),
   (0x1F202, 0x1F202), (0x1F237, 0x1F237), (0x1F321, 0x1F321), (0x1F324, 0x1F32C),
   (0x1F336, 0x1F336), (0x1F37D, 0x1F37D), (0x1F396, 0x1F397), (0x1F399, 0x1F39B),
   (0x1F39E, 0x1F39F), (0x1F3CB, 0x1F3CE), (0x1F3D4, 0x1F3DF), (0x1F3F3, 0x1F3F3),
   (0x1F3F5, 0x1F3F5), (0x1F3F7, 0x1F3F7), (0x1F43F, 0x1F43F), (0x1F441, 0x1F441),
   (0x1F4FD, 0x1F4FD), (0x1F549, 0x1F54A), (0x1F56F, 0x1F570), (0x1F573, 0x1F579),
   (0x1F587, 0x1F587), (0x1F58A, 0x1F58D), (0x1F590, 0x1F590), (0x1F5A5, 0x1F5A5),
   (0x1F5A8, 0x1F5A8), (0x1F5B1, 0x1F5B2), (0x1F5BC, 0x1F5BC), (0x1F5C2, 0x1F5C4),
   (0x1F5D1, 0x1F5D3), (0x1F5DC, 0x1F5DE), (0x1F5E1, 0x1F5E1), (0x1F5E3, 0x1F5E3),
   (0x1F5E8, 0x1F5E8), (0x1F5EF, 0x1F5EF), (0x1F5F3, 0x1F5F3), (0x1F5FA, 0x1F5FA),
   (0x1F6CB, 0x1F6CB), (0x1F6CD, 0x1F6CF), (0x1F6E0, 0x1F6E5), (0x1F6E9, 0x1F6E9),
   (0x1F6F0, 0x1F6F0), (0x1F6F3, 0x1F6F3)]

/-- The regex class `\p\x7bEmoji\x7d` as a character test. -/
def isEmojiProp (c : Char) : Bool :=
  isEmojiPresentation c ||
  emojiTextDefaultRanges.any (fun p => decide (p.1 ≤ c.toNat) && decide (c.toNat ≤ p.2))

/-- Global scan of the emoji regex
(alternation `Emoji_Presentation` first, else an `Emoji` code point
followed by `U+FE0F`), advancing one code point past a failed position
as a `u`-flagged global regex does; returns the list of matches. -/
def emojiScan : List Char → List (List Char)
  | [] => []
  | c :: rest =>
    if isEmojiPresentation c then [c] :: emojiScan rest
    else
      match rest with
      | [] => []
      | v :: rest2 =>
        if isEmojiProp c && v.toNat = 0xFE0F then [c, v] :: emojiScan rest2
        else emojiScan (v :: rest2)

/-- The settled upstream `fetch`: the HTTP `status`; whether reading the
body (`response.json()`, and for success responses the
`data.choices[0].message.content` access) succeeds; and the assistant
message text `content` when it does. -/
structure Upstream where
  status : Nat
  jsonOk : Bool
  content : String

/-- Model of `Response.ok`: status in the inclusive range 200–299. -/
def respOk (status : Nat) : Bool :=
  decide (200 ≤ status) && decide (status ≤ 299)

/-- The catch-all failure response of the craft handler. -/
def serverFail : HttpResp := ⟨500, errObj "Failed to create combination"⟩

/-- The reply-processing tail of the craft handler
(`src/proxy-server.js` lines 241–268): trim the content, extract a
fenced block if present, `JSON.parse` it, require truthy `name` and
`emoji` fields, keep only the first emoji regex match, and send the
resulting object; any throw is answered with 500 and the generic body. -/
def craftParse (content : String) : HttpResp :=
  let jsonStr := extractJsonStr (jsTrim content)
  match jsonParse jsonStr with
  | none => serverFail
  | some result =>
    if jsTruthy (jGet result "name") && jsTruthy (jGet result "emoji") then
      match jGet result "emoji" with
      | some (.str e) =>
        match emojiScan e.data with
        | [] => ⟨200, result⟩
        | m :: _ => ⟨200, jSet result "emoji" (.str (String.mk m))⟩
      | _ => serverFail
    else serverFail

/-- Falsiness of `process.env.OPENAI_API_KEY` (`!apiKey`): unset or
empty. -/
def envFalsy : Option String → Bool
  | none => true
  | some s => s = ""

/-- The `POST /api/craft` handler body (`src/proxy-server.js` lines
97–269), after the rate-limiter middleware: validation, credential
check, one upstream call, reply processing.  Returns the response and
the number of outbound upstream calls made. -/
def craftHandler (apiKey : Option String) (item1 item2 : Option JSVal) (up : Upstream) :
    HttpResp × Nat :=
  if jsFalsy item1 || jsFalsy item2 then
    (⟨400, errObj "item1 and item2 are required"⟩, 0)
  else
    match item1, item2 with
    | some (.str s1), some (.str s2) =>
      if utf16Len s1 > 100 || utf16Len s2 > 100 then
        (⟨400, errObj "Item names too long"⟩, 0)
      else if envFalsy apiKey then
        (⟨500, errObj "Server configuration error"⟩, 0)
      else if respOk up.status then
        if up.jsonOk then (craftParse up.content, 1) else (serverFail, 1)
      else
        if up.jsonOk then (⟨up.status, errObj "AI service error"⟩, 1) else (serverFail, 1)
    | _, _ => (⟨400, errObj "Items must be strings"⟩, 0)

/-- Per-client window bookkeeping of a rate-limiter tier. -/
structure WindowState where
  start : Nat
  count : Nat
deriving DecidableEq, Repr

/-- A rate-limiter tier configuration (`windowMs`, `max`, rejection
`message`). -/
structure RateTier where
  windowMs : Nat
  max : Nat
  message : String

/-- The strict tier configured at `src/proxy-server.js` lines 27–31:
one-minute window, 10 crafts per client, fixed rejection message. -/
def strictCraftLimiter : RateTier :=
  ⟨1 * 60 * 1000, 10, "Crafting too fast! Please wait a moment."⟩

/-- The general tier configured at `src/proxy-server.js` lines 18–24:
15-minute window, 100 requests per client. -/
def craftLimiter : RateTier :=
  ⟨15 * 60 * 1000, 100, "Too many requests, please try again later."⟩

/-- Per-tier limiter store: client identity to window state. -/
abbrev LimMap := List (String × WindowState)

/-- Modelled from the spec: the rate-limiter algorithm of the
`express-rate-limit` dependency, whose code is not part of this
repository.  Spec §4.1: for a given client and tier, keep a window
start time and a counter; on each call, if the elapsed time since the
window start is at least the window length, reset the start to now and
the counter to 0; increment the counter; admit exactly when the counter
is at most the tier's max.  A client with no state yet starts a window
now with counter 0. -/
def rateAdmit (tier : RateTier) (m : LimMap) (client : String) (now : Nat) :
    LimMap × Bool :=
  let ws0 := (assocGet m client).getD ⟨now, 0⟩
  let ws1 := if now - ws0.start ≥ tier.windowMs then ⟨now, 0⟩ else ws0
  let ws2 : WindowState := ⟨ws1.start, ws1.count + 1⟩
  (assocSet m client ws2, ws2.count ≤ tier.max)

/-- The process-wide mutable state of the server: the discovery map and
the two limiter stores. -/
structure ServerState where
  discoveryTracker : DiscMap
  strictStore : LimMap
  generalStore : LimMap

/-- The full `POST /api/craft` route: the strict limiter middleware
(429 with the tier's message on rejection) followed by the handler.
Returns the new server state, the response and the number of outbound
upstream calls. -/
def craftRoute (st : ServerState) (client : String) (now : Nat) (apiKey : Option String)
    (item1 item2 : Option JSVal) (up : Upstream) : ServerState × HttpResp × Nat :=
  let ra := rateAdmit strictCraftLimiter st.strictStore client now
  let st1 := { st with strictStore := ra.1 }
  if ra.2 then
    (st1, craftHandler apiKey item1 item2 up)
  else
    (st1, ⟨429, errObj strictCraftLimiter.message⟩, 0)

/-- A sequence of `POST /api/craft` requests from one client at the given
times, with fixed body, environment and upstream behaviour. -/
def craftSeq (st : ServerState) (client : String) (apiKey : Option String)
    (item1 item2 : Option JSVal) (up : Upstream) : List Nat → ServerState × List (HttpResp × Nat)
  | [] => (st, [])
  | t :: ts =>
    let r1 := craftRoute st client t apiKey item1 item2 up
    let r2 := craftSeq r1.1 client apiKey item1 item2 up ts
    (r2.1, r1.2 :: r2.2)

/-- The count the discovery map holds for a key (0 when unseen). -/
def countOf (m : DiscMap) (k : String) : Nat := (assocGet m k).getD 0

/-- The normalization claim C4's spec sentence describes — trim the
surrounding whitespace, then lowercase — for comparison with the key
computation the code performs. -/
def specNormalize (s : String) : String := jsToLower (jsTrim s)

/-- Claim C10: the path parameter `%` is malformed percent-encoding, so
decoding throws and `GET /api/discovery-count/:item` answers 500 with an
`\x7berror: message\x7d` body instead of a count, while an unseen
well-formed item still yields `\x7bcount: 0\x7d`. -/
theorem discoveryCount_malformed_percent :
    discoveryCountHandler [] "%" = ⟨500, errObj "URI malformed"⟩ ∧
    decodeURIComponent "%" = .error "URI malformed" ∧
    discoveryCountHandler [] "Water" = ⟨200, .obj [("count", natJson 0)]⟩ :=
  ⟨rfl, rfl, rfl⟩

theorem trackDiscoveryHandler_valid (m : DiscMap) (s : String) (hs : s ≠ "")
    (hl : utf16Len s ≤ 100) :
    trackDiscoveryHandler m (some (.str s)) =
      (assocSet m (jsToLower s) (countOf m (jsToLower s) + 1),
       ⟨200, .obj [("success", .bool true), ("count", natJson (countOf m (jsToLower s) + 1))]⟩) := by
  unfold trackDiscoveryHandler
  have hf : jsFalsy (some (.str s)) = false := by simp [jsFalsy, hs]
  rw [hf]
  simp [Nat.not_lt.mpr hl, countOf]

theorem discoveryCountHandler_ok (m : DiscMap) (t dec : String)
    (hdec : decodeURIComponent t = .ok dec) (hl : utf16Len (jsToLower dec) ≤ 100) :
    discoveryCountHandler m t = ⟨200, .obj [("count", natJson (countOf m (jsToLower dec)))]⟩ := by
  unfold discoveryCountHandler
  rw [hdec]
  simp [Nat.not_lt.mpr hl, countOf]

theorem trackDiscoveryHandler_fst (m : DiscMap) (item : Option JSVal) :
    (trackDiscoveryHandler m item).1 = m ∨
    ∃ s, item = some (.str s) ∧
      (trackDiscoveryHandler m item).1 = assocSet m (jsToLower s) (countOf m (jsToLower s) + 1) := by
  rcases item with _ | v
  · left; rfl
  · rcases v with s | n | b | _
    · by_cases hs : s = ""
      · left; subst hs; rfl
      · by_cases hl : utf16Len s > 100
        · left
          unfold trackDiscoveryHandler
          have hf : jsFalsy (some (.str s)) = false := by simp [jsFalsy, hs]
          rw [hf]
          simp [hl]
        · right
          refine ⟨s, rfl, ?_⟩
          rw [trackDiscoveryHandler_valid m s hs (Nat.not_lt.mp hl)]
    · by_cases hn : n = 0
      · left; subst hn; rfl
      · left
        unfold trackDiscoveryHandler
        have hf : jsFalsy (some (.num n)) = false := by simp [jsFalsy, hn]
        rw [hf]
        rfl
    · cases b
      · left; rfl
      · left; rfl
    · left; rfl

/-- Claim C6: a discovery count starts at 0 for unseen keys (peek on a
never-seen item answers `\x7bcount: 0\x7d` without error), each
successful track call increments the tracked key's count by exactly one,
and no track call ever decreases any key's count. -/
theorem discovery_count_monotone :
    (∀ (m : DiscMap) (t dec : String), decodeURIComponent t = .ok dec →
        utf16Len (jsToLower dec) ≤ 100 → assocGet m (jsToLower dec) = none →
        discoveryCountHandler m t = ⟨200, .obj [("count", natJson 0)]⟩) ∧
    (∀ (m : DiscMap) (s : String), s ≠ "" → utf16Len s ≤ 100 →
        countOf (trackDiscoveryHandler m (some (.str s))).1 (jsToLower s) =
          countOf m (jsToLower s) + 1) ∧
    (∀ (m : DiscMap) (item : Option JSVal) (k : String),
        countOf m k ≤ countOf (trackDiscoveryHandler m item).1 k) := by
  refine ⟨?_, ?_, ?_⟩
  · intro m t dec hdec hl hnone
    rw [discoveryCountHandler_ok m t dec hdec hl, countOf, hnone]
    rfl
  · intro m s hs hl
    rw [trackDiscoveryHandler_valid m s hs hl]
    simp only [countOf, assocGet_assocSet_self, Option.getD_some]
  · intro m item k
    rcases trackDiscoveryHandler_fst m item with h | ⟨s, _, h⟩
    · rw [h]
    · rw [h]
      by_cases hk : k = jsToLower s
      · subst hk
        simp only [countOf, assocGet_assocSet_self, Option.getD_some]
        exact Nat.le_succ _
      · simp only [countOf]
        rw [assocGet_assocSet_ne _ _ _ _ hk]

/-- Claim C6 witness: from the empty map, peek on `Water` answers
`\x7bcount: 0\x7d` and track on `Water` moves its count from 0 to 1. -/
theorem discovery_count_monotone_witness :
    discoveryCountHandler [] "Water" = ⟨200, .obj [("count", natJson 0)]⟩ ∧
    countOf (trackDiscoveryHandler [] (some (.str "Water"))).1 (jsToLower "Water") =
      countOf [] (jsToLower "Water") + 1 :=
  ⟨discovery_count_monotone.1 [] "Water" "Water" rfl (by decide) rfl,
   discovery_count_monotone.2.1 [] "Water" (by decide) (by decide)⟩

/-- Claim C5: from any map state, tracking a valid item and immediately
peeking any case variant of it returns the very count track answered
with. -/
theorem track_then_peek (m : DiscMap) (s t dec : String)
    (hs : s ≠ "") (hl : utf16Len s ≤ 100)
    (hdec : decodeURIComponent t = .ok dec)
    (hcase : jsToLower dec = jsToLower s)
    (hl2 : utf16Len (jsToLower dec) ≤ 100) :
    trackDiscoveryHandler m (some (.str s)) =
      (assocSet m (jsToLower s) (countOf m (jsToLower s) + 1),
       ⟨200, .obj [("success", .bool true), ("count", natJson (countOf m (jsToLower s) + 1))]⟩) ∧
    discoveryCountHandler (trackDiscoveryHandler m (some (.str s))).1 t =
      ⟨200, .obj [("count", natJson (countOf m (jsToLower s) + 1))]⟩ := by
  refine ⟨trackDiscoveryHandler_valid m s hs hl, ?_⟩
  rw [trackDiscoveryHandler_valid m s hs hl]
  rw [discoveryCountHandler_ok _ t dec hdec hl2, hcase]
  simp only [countOf, assocGet_assocSet_self, Option.getD_some]

/-- Claim C5 witness: from the empty map, `track("Water")` then
`track("water")` then `peek("WATER")` answers `\x7bcount: 2\x7d`. -/
theorem track_then_peek_witness :
    discoveryCountHandler
      (trackDiscoveryHandler
        (trackDiscoveryHandler [] (some (.str "Water"))).1 (some (.str "water"))).1
      "WATER" = ⟨200, .obj [("count", natJson 2)]⟩ := by
  have h := track_then_peek (trackDiscoveryHandler [] (some (.str "Water"))).1
    "water" "WATER" "WATER" (by decide) (by decide) rfl rfl (by decide)
  exact h.2

/-- Claim C4 counterexample: neither endpoint trims — tracking
`" Water "` stores the key `" water "` with its surrounding spaces, not
the spec-normalized `"water"`, and a follow-up peek on `"water"` still
answers 0. -/
theorem discovery_no_trim_counterexample :
    (trackDiscoveryHandler [] (some (.str " Water "))).1 = [(" water ", 1)] ∧
    specNormalize " Water " = "water" ∧
    (" water " : String) ≠ "water" ∧
    discoveryCountHandler (trackDiscoveryHandler [] (some (.str " Water "))).1 "water" =
      ⟨200, .obj [("count", natJson 0)]⟩ ∧
    discoveryCountHandler [] "" = ⟨200, .obj [("count", natJson 0)]⟩ :=
  ⟨rfl, rfl, by decide, rfl, rfl⟩

/-- Claim C4 as amended: both endpoints normalize by lowercasing only
(no trimming) before using the key; track rejects missing or empty
input, non-string input and input over 100 UTF-16 units; peek rejects a
decoded item whose lowercased form exceeds 100 units (and does not
reject empty input). -/
theorem discovery_normalize_and_validate :
    (∀ (m : DiscMap) (s : String), s ≠ "" → utf16Len s ≤ 100 →
        (trackDiscoveryHandler m (some (.str s))).1 =
          assocSet m (jsToLower s) (countOf m (jsToLower s) + 1)) ∧
    (∀ m : DiscMap,
        trackDiscoveryHandler m none = (m, ⟨400, errObj "item is required"⟩) ∧
        trackDiscoveryHandler m (some (.str "")) = (m, ⟨400, errObj "item is required"⟩)) ∧
    (∀ (m : DiscMap) (s : String), utf16Len s > 100 →
        trackDiscoveryHandler m (some (.str s)) = (m, ⟨400, errObj "Invalid item name"⟩)) ∧
    (∀ (m : DiscMap) (n : Int), n ≠ 0 →
        trackDiscoveryHandler m (some (.num n)) = (m, ⟨400, errObj "Invalid item name"⟩)) ∧
    (∀ (m : DiscMap) (t dec : String), decodeURIComponent t = .ok dec →
        utf16Len (jsToLower dec) ≤ 100 →
        discoveryCountHandler m t =
          ⟨200, .obj [("count", natJson (countOf m (jsToLower dec)))]⟩) ∧
    (∀ (m : DiscMap) (t dec : String), decodeURIComponent t = .ok dec →
        utf16Len (jsToLower dec) > 100 →
        discoveryCountHandler m t = ⟨400, errObj "Invalid item name"⟩) := by
  refine ⟨?ta, ?tb, ?tc, ?td, ?pa, ?pb⟩
  · intro m s hs hl
    rw [trackDiscoveryHandler_valid m s hs hl]
  · intro m
    exact ⟨rfl, rfl⟩
  · intro m s hl
    have hs : s ≠ "" := by
      intro h
      subst h
      simp [utf16Len] at hl
    unfold trackDiscoveryHandler
    have hf : jsFalsy (some (.str s)) = false := by simp [jsFalsy, hs]
    rw [hf]
    simp [hl]
  · intro m n hn
    unfold trackDiscoveryHandler
    have hf : jsFalsy (some (.num n)) = false := by simp [jsFalsy, hn]
    rw [hf]
    rfl
  · intro m t dec hdec hl
    exact discoveryCountHandler_ok m t dec hdec hl
  · intro m t dec hdec hl
    unfold discoveryCountHandler
    rw [hdec]
    simp [hl]

/-- Claim C4 amended witness: tracking `" Water "` keys the map at
`" water "` and peeking an over-long key is rejected. -/
theorem discovery_normalize_and_validate_witness :
    (trackDiscoveryHandler [] (some (.str " Water "))).1 =
      assocSet [] (jsToLower " Water ") (countOf [] (jsToLower " Water ") + 1) ∧
    trackDiscoveryHandler [] none = ([], ⟨400, errObj "item is required"⟩) :=
  ⟨discovery_normalize_and_validate.1 [] " Water " (by decide) (by decide),
   (discovery_normalize_and_validate.2.1 []).1⟩

theorem craftHandler_valid (apiKey : String) (s1 s2 : String) (up : Upstream)
    (hk : apiKey ≠ "") (h1 : s1 ≠ "") (h2 : s2 ≠ "")
    (hl1 : utf16Len s1 ≤ 100) (hl2 : utf16Len s2 ≤ 100) :
    craftHandler (some apiKey) (some (.str s1)) (some (.str s2)) up =
      if respOk up.status then
        if up.jsonOk then (craftParse up.content, 1) else (serverFail, 1)
      else
        if up.jsonOk then (⟨up.status, errObj "AI service error"⟩, 1) else (serverFail, 1) := by
  unfold craftHandler
  have hf1 : jsFalsy (some (.str s1)) = false := by simp [jsFalsy, h1]
  have hf2 : jsFalsy (some (.str s2)) = false := by simp [jsFalsy, h2]
  have he : envFalsy (some apiKey) = false := by simp [envFalsy, hk]
  simp [hf1, hf2, he, Nat.not_lt.mpr hl1, Nat.not_lt.mpr hl2]

theorem craftHandler_falsy (apiKey : Option String) (item1 item2 : Option JSVal)
    (up : Upstream) (hf : (jsFalsy item1 || jsFalsy item2) = true) :
    craftHandler apiKey item1 item2 up = (⟨400, errObj "item1 and item2 are required"⟩, 0) := by
  unfold craftHandler
  exact if_pos hf

theorem craftHandler_too_long (apiKey : Option String) (s1 s2 : String) (up : Upstream)
    (h1 : s1 ≠ "") (h2 : s2 ≠ "")
    (hlen : utf16Len s1 > 100 ∨ utf16Len s2 > 100) :
    craftHandler apiKey (some (.str s1)) (some (.str s2)) up =
      (⟨400, errObj "Item names too long"⟩, 0) := by
  unfold craftHandler
  have hf1 : jsFalsy (some (.str s1)) = false := by simp [jsFalsy, h1]
  have hf2 : jsFalsy (some (.str s2)) = false := by simp [jsFalsy, h2]
  rw [hf1, hf2]
  show (if (decide (utf16Len s1 > 100) || decide (utf16Len s2 > 100)) = true
        then _ else _) = _
  refine if_pos ?_
  rcases hlen with hl | hl <;> simp [hl]

/-- Claim C7: whenever `item1` or `item2` is missing, empty, not a
string, or longer than 100 units, the craft handler answers 400 with an
error body and makes no outbound upstream call. -/
theorem craft_validation_no_upstream (apiKey : Option String) (item1 item2 : Option JSVal)
    (up : Upstream)
    (h : jsFalsy item1 = true ∨ jsFalsy item2 = true ∨
         (∀ s, item1 ≠ some (.str s)) ∨ (∀ s, item2 ≠ some (.str s)) ∨
         (∃ s, item1 = some (.str s) ∧ utf16Len s > 100) ∨
         (∃ s, item2 = some (.str s) ∧ utf16Len s > 100)) :
    (craftHandler apiKey item1 item2 up).1.status = 400 ∧
    (∃ msg, (craftHandler apiKey item1 item2 up).1.body = errObj msg) ∧
    (craftHandler apiKey item1 item2 up).2 = 0 := by
  by_cases hf : (jsFalsy item1 || jsFalsy item2) = true
  · rw [craftHandler_falsy apiKey item1 item2 up hf]
    exact ⟨rfl, ⟨_, rfl⟩, rfl⟩
  · have hf1 : jsFalsy item1 = false := by
      cases h1 : jsFalsy item1 <;> simp [h1] at hf ⊢
    have hf2 : jsFalsy item2 = false := by
      cases h2 : jsFalsy item2 <;> simp [h2] at hf ⊢
    have hstr : (craftHandler apiKey item1 item2 up =
        (⟨400, errObj "Items must be strings"⟩, 0)) ∨
        ∃ s1 s2, item1 = some (.str s1) ∧ item2 = some (.str s2) := by
      unfold craftHandler
      rw [if_neg hf]
      rcases item1 with _ | v1
      · simp [jsFalsy] at hf1
      · rcases v1 with s1 | n1 | b1 | _
        · rcases item2 with _ | v2
          · simp [jsFalsy] at hf2
          · rcases v2 with s2 | n2 | b2 | _
            · exact Or.inr ⟨s1, s2, rfl, rfl⟩
            · exact Or.inl rfl
            · exact Or.inl rfl
            · exact Or.inl rfl
        · exact Or.inl rfl
        · exact Or.inl rfl
        · exact Or.inl rfl
    rcases hstr with hstr | ⟨s1, s2, he1, he2⟩
    · rw [hstr]
      exact ⟨rfl, ⟨_, rfl⟩, rfl⟩
    · subst he1
      subst he2
      have hs1 : s1 ≠ "" := by
        intro hh
        subst hh
        simp [jsFalsy] at hf1
      have hs2 : s2 ≠ "" := by
        intro hh
        subst hh
        simp [jsFalsy] at hf2
      have hlen : utf16Len s1 > 100 ∨ utf16Len s2 > 100 := by
        rcases h with h | h | h | h | ⟨s, hs, hl⟩ | ⟨s, hs, hl⟩
        · rw [hf1] at h; cases h
        · rw [hf2] at h; cases h
        · exact absurd rfl (h s1)
        · exact absurd rfl (h s2)
        · cases hs; exact Or.inl hl
        · cases hs; exact Or.inr hl
      rw [craftHandler_too_long apiKey s1 s2 up hs1 hs2 hlen]
      exact ⟨rfl, ⟨_, rfl⟩, rfl⟩

/-- Claim C7 witness: a request missing `item1` is answered 400 with an
error body and no upstream call. -/
theorem craft_validation_no_upstream_witness :
    (craftHandler (some "key") none (some (.str "Fire")) ⟨200, true, ""⟩).1.status = 400 ∧
    (∃ msg, (craftHandler (some "key") none (some (.str "Fire")) ⟨200, true, ""⟩).1.body =
      errObj msg) ∧
    (craftHandler (some "key") none (some (.str "Fire")) ⟨200, true, ""⟩).2 = 0 :=
  craft_validation_no_upstream (some "key") none (some (.str "Fire")) ⟨200, true, ""⟩
    (Or.inl rfl)

/-- Claim C8: a successful upstream reply whose extracted text does not
parse as JSON, or parses without a truthy `name` or `emoji` field, makes
the handler answer the generic
`\x7berror: "Failed to create combination"\x7d` with status 500 rather
than the upstream content. -/
theorem craft_bad_reply_generic (apiKey s1 s2 content : String)
    (hk : apiKey ≠ "") (h1 : s1 ≠ "") (h2 : s2 ≠ "")
    (hl1 : utf16Len s1 ≤ 100) (hl2 : utf16Len s2 ≤ 100)
    (hbad : jsonParse (extractJsonStr (jsTrim content)) = none ∨
      ∃ r, jsonParse (extractJsonStr (jsTrim content)) = some r ∧
        (jsTruthy (jGet r "name") = false ∨ jsTruthy (jGet r "emoji") = false)) :
    craftHandler (some apiKey) (some (.str s1)) (some (.str s2)) ⟨200, true, content⟩ =
      (⟨500, errObj "Failed to create combination"⟩, 1) := by
  rw [craftHandler_valid apiKey s1 s2 _ hk h1 h2 hl1 hl2]
  show (if respOk 200 then _ else _) = _
  rw [if_pos (by decide : respOk 200 = true), if_pos rfl]
  show (craftParse content, 1) = (serverFail, 1)
  simp only [craftParse]
  rcases hbad with hnone | ⟨r, hsome, hfield⟩
  · rw [hnone]
  · rw [hsome]
    rcases hfield with hfield | hfield <;> simp [hfield]

/-- Claim C8 witness: an upstream reply that is not JSON at all is
answered with the generic 500 failure body. -/
theorem craft_bad_reply_generic_witness :
    craftHandler (some "key") (some (.str "Water")) (some (.str "Fire"))
      ⟨200, true, "no json here"⟩ =
      (⟨500, errObj "Failed to create combination"⟩, 1) :=
  craft_bad_reply_generic "key" "Water" "Fire" "no json here"
    (by decide) (by decide) (by decide) (by decide) (by decide) (Or.inl rfl)

/-- Claim C1: for a successful upstream reply whose (possibly fenced)
text parses to an object with a truthy string `name` and an `emoji`
string with at least one emoji-regex match, the handler answers 200 with
the name unchanged and only the first matched emoji. -/
theorem craft_fence_first_emoji (apiKey s1 s2 content name e : String)
    (fields : List (String × JsonV)) (m : List Char) (ms : List (List Char))
    (hk : apiKey ≠ "") (h1 : s1 ≠ "") (h2 : s2 ≠ "")
    (hl1 : utf16Len s1 ≤ 100) (hl2 : utf16Len s2 ≤ 100)
    (hparse : jsonParse (extractJsonStr (jsTrim content)) = some (.obj fields))
    (hname : assocGet fields "name" = some (.str name)) (hnm : name ≠ "")
    (hemoji : assocGet fields "emoji" = some (.str e))
    (hscan : emojiScan e.data = m :: ms) :
    craftHandler (some apiKey) (some (.str s1)) (some (.str s2)) ⟨200, true, content⟩ =
      (⟨200, .obj (assocSet fields "emoji" (.str (String.mk m)))⟩, 1) ∧
    jGet (.obj (assocSet fields "emoji" (.str (String.mk m)))) "name" = some (.str name) ∧
    jGet (.obj (assocSet fields "emoji" (.str (String.mk m)))) "emoji" =
      some (.str (String.mk m)) := by
  refine ⟨?_, ?_, ?_⟩
  · rw [craftHandler_valid apiKey s1 s2 _ hk h1 h2 hl1 hl2]
    show (if respOk 200 then _ else _) = _
    rw [if_pos (by decide : respOk 200 = true), if_pos rfl]
    show (craftParse content, 1) = _
    simp only [craftParse]
    rw [hparse]
    have he_ne : e ≠ "" := by
      intro h
      subst h
      simp [emojiScan] at hscan
    have hgn : jGet (JsonV.obj fields) "name" = some (.str name) := hname
    have hge : jGet (JsonV.obj fields) "emoji" = some (.str e) := hemoji
    simp [hgn, hge, jsTruthy, hnm, he_ne, hscan, jSet]
  · rw [jGet, assocGet_assocSet_ne fields "emoji" "name" _ (by decide), hname]
  · rw [jGet, assocGet_assocSet_self]

/-- Claim C1 witness: the reply
`"` three backquotes `json\n\x7b"name":"Steam","emoji":"💨🔥"\x7d\n` three
backquotes `"` parses to `\x7bname: "Steam", emoji: "💨"\x7d` — fence
stripped, only the first of the two emoji retained. -/
theorem craft_fence_first_emoji_witness :
    craftHandler (some "key") (some (.str "Water")) (some (.str "Fire"))
      ⟨200, true, "```json\n\x7b\"name\":\"Steam\",\"emoji\":\"💨🔥\"\x7d\n```"⟩ =
      (⟨200, .obj [("name", .str "Steam"), ("emoji", .str "💨")]⟩, 1) := by
  have h := craft_fence_first_emoji "key" "Water" "Fire"
    "```json\n\x7b\"name\":\"Steam\",\"emoji\":\"💨🔥\"\x7d\n```" "Steam" "💨🔥"
    [("name", .str "Steam"), ("emoji", .str "💨🔥")] ['💨'] [['🔥']]
    (by decide) (by decide) (by decide) (by decide) (by decide)
    rfl rfl (by decide) rfl rfl
  exact h.1

theorem craftHandler_no_key (apiKey : Option String) (s1 s2 : String) (up : Upstream)
    (h1 : s1 ≠ "") (h2 : s2 ≠ "")
    (hl1 : utf16Len s1 ≤ 100) (hl2 : utf16Len s2 ≤ 100)
    (he : envFalsy apiKey = true) :
    craftHandler apiKey (some (.str s1)) (some (.str s2)) up =
      (⟨500, errObj "Server configuration error"⟩, 0) := by
  unfold craftHandler
  have hf1 : jsFalsy (some (.str s1)) = false := by simp [jsFalsy, h1]
  have hf2 : jsFalsy (some (.str s2)) = false := by simp [jsFalsy, h2]
  rw [hf1, hf2]
  show (if (decide (utf16Len s1 > 100) || decide (utf16Len s2 > 100)) = true
        then _ else _) = _
  rw [if_neg (by simp [Nat.not_lt.mpr hl1, Nat.not_lt.mpr hl2]), if_pos he]

/-- Claim C3 counterexample: for a validated request with the credential
set, an upstream reply with non-success status 401 is answered with
status 401 — the upstream status is passed through, not mapped to
500 as the claim states. -/
theorem craft_upstream_status_counterexample :
    (craftHandler (some "key") (some (.str "Water")) (some (.str "Fire"))
      ⟨401, true, "secret upstream detail"⟩).1.status = 401 ∧
    (401 : Nat) ≠ 500 :=
  ⟨rfl, by decide⟩

/-- Claim C3 as amended: for a validated request, a missing credential
yields 500 with a generic body and no upstream call; an upstream reply
whose body cannot be read yields 500 with the generic failure body; an
upstream non-success status is passed through as the response status
with the fixed generic body `\x7berror: "AI service error"\x7d`; and for
non-success statuses the response never depends on the upstream content,
so the upstream error detail is never echoed. -/
theorem craft_error_responses (apiKey : Option String) (s1 s2 : String)
    (st : Nat) (jok : Bool) (c c' : String)
    (h1 : s1 ≠ "") (h2 : s2 ≠ "")
    (hl1 : utf16Len s1 ≤ 100) (hl2 : utf16Len s2 ≤ 100) :
    (envFalsy apiKey = true →
      craftHandler apiKey (some (.str s1)) (some (.str s2)) ⟨st, jok, c⟩ =
        (⟨500, errObj "Server configuration error"⟩, 0)) ∧
    (∀ key : String, key ≠ "" →
      craftHandler (some key) (some (.str s1)) (some (.str s2)) ⟨st, false, c⟩ =
        (⟨500, errObj "Failed to create combination"⟩, 1)) ∧
    (∀ key : String, key ≠ "" → respOk st = false →
      craftHandler (some key) (some (.str s1)) (some (.str s2)) ⟨st, true, c⟩ =
        (⟨st, errObj "AI service error"⟩, 1)) ∧
    (respOk st = false →
      craftHandler apiKey (some (.str s1)) (some (.str s2)) ⟨st, jok, c⟩ =
        craftHandler apiKey (some (.str s1)) (some (.str s2)) ⟨st, jok, c'⟩) := by
  refine ⟨?_, ?_, ?_, ?_⟩
  · intro he
    exact craftHandler_no_key apiKey s1 s2 _ h1 h2 hl1 hl2 he
  · intro key hkey
    rw [craftHandler_valid key s1 s2 _ hkey h1 h2 hl1 hl2]
    dsimp only
    by_cases hok : respOk st = true
    · rw [if_pos hok]
      rfl
    · rw [if_neg hok]
      rfl
  · intro key hkey hnok
    rw [craftHandler_valid key s1 s2 _ hkey h1 h2 hl1 hl2]
    dsimp only
    rw [if_neg (by rw [hnok]; exact Bool.false_ne_true)]
    rfl
  · intro hnok
    by_cases he : envFalsy apiKey = true
    · rw [craftHandler_no_key apiKey s1 s2 _ h1 h2 hl1 hl2 he,
          craftHandler_no_key apiKey s1 s2 _ h1 h2 hl1 hl2 he]
    · rcases apiKey with _ | key
      · simp [envFalsy] at he
      · have hkey : key ≠ "" := by
          intro hh
          subst hh
          simp [envFalsy] at he
        rw [craftHandler_valid key s1 s2 _ hkey h1 h2 hl1 hl2,
            craftHandler_valid key s1 s2 _ hkey h1 h2 hl1 hl2]
        dsimp only
        have hn : ¬respOk st = true := by rw [hnok]; exact Bool.false_ne_true
        simp only [if_neg hn]

/-- Claim C3 amended witness: with no credential a validated request is
answered 500 with the generic configuration body, and an upstream 401
with readable body is answered 401 with the generic
`\x7berror: "AI service error"\x7d` body. -/
theorem craft_error_responses_witness :
    craftHandler none (some (.str "Water")) (some (.str "Fire")) ⟨200, true, "x"⟩ =
      (⟨500, errObj "Server configuration error"⟩, 0) ∧
    craftHandler (some "key") (some (.str "Water")) (some (.str "Fire")) ⟨401, true, "x"⟩ =
      (⟨401, errObj "AI service error"⟩, 1) :=
  ⟨(craft_error_responses none "Water" "Fire" 200 true "x" "x"
      (by decide) (by decide) (by decide) (by decide)).1 rfl,
   (craft_error_responses (some "key") "Water" "Fire" 401 true "x" "x"
      (by decide) (by decide) (by decide) (by decide)).2.2.1 "key" (by decide) (by decide)⟩

theorem craftHandler_calls_le_one (apiKey : Option String) (item1 item2 : Option JSVal)
    (up : Upstream) : (craftHandler apiKey item1 item2 up).2 ≤ 1 := by
  unfold craftHandler
  split
  · exact Nat.zero_le 1
  · split
    · split
      · exact Nat.zero_le 1
      · split
        · exact Nat.zero_le 1
        · split
          · split
            · exact Nat.le_refl 1
            · exact Nat.le_refl 1
          · split
            · exact Nat.le_refl 1
            · exact Nat.le_refl 1
    · exact Nat.zero_le 1

/-- Claim C9: a craft invocation, whatever its outcome, leaves the
discovery map (and the general-tier limiter store) unchanged and makes
at most one outbound upstream call. -/
theorem craft_discovery_frame (st : ServerState) (client : String) (now : Nat)
    (apiKey : Option String) (item1 item2 : Option JSVal) (up : Upstream) :
    (craftRoute st client now apiKey item1 item2 up).1.discoveryTracker =
      st.discoveryTracker ∧
    (craftRoute st client now apiKey item1 item2 up).1.generalStore = st.generalStore ∧
    (craftRoute st client now apiKey item1 item2 up).2.2 ≤ 1 := by
  unfold craftRoute
  dsimp only
  split
  · exact ⟨rfl, rfl, craftHandler_calls_le_one apiKey item1 item2 up⟩
  · exact ⟨rfl, rfl, Nat.zero_le 1⟩

theorem craftSeq_in_window (client : String) (apiKey : Option String)
    (item1 item2 : Option JSVal) (up : Upstream) (t0 : Nat) (ts : List Nat) :
    ∀ (st : ServerState) (k : Nat),
      assocGet st.strictStore client = some ⟨t0, k⟩ →
      (∀ t ∈ ts, t - t0 < strictCraftLimiter.windowMs) →
      craftSeq st client apiKey item1 item2 up ts =
        ({ st with strictStore := assocSet st.strictStore client ⟨t0, k + ts.length⟩ },
         (List.range' (k + 1) ts.length).map (fun j =>
           if j ≤ strictCraftLimiter.max then craftHandler apiKey item1 item2 up
           else (⟨429, errObj strictCraftLimiter.message⟩, 0))) := by
  induction ts with
  | nil =>
    intro st k hc _
    simp [craftSeq, assocSet_self_of_assocGet _ _ _ hc]
  | cons t ts ih =>
    intro st k hc hwin
    have hlt : ¬t - t0 ≥ strictCraftLimiter.windowMs := by
      have := hwin t (List.mem_cons_self t ts)
      omega
    have hstep : craftRoute st client t apiKey item1 item2 up =
        ({ st with strictStore := assocSet st.strictStore client ⟨t0, k + 1⟩ },
         if k + 1 ≤ strictCraftLimiter.max then craftHandler apiKey item1 item2 up
         else (⟨429, errObj strictCraftLimiter.message⟩, 0)) := by
      unfold craftRoute rateAdmit
      dsimp only
      rw [hc]
      dsimp only [Option.getD]
      rw [if_neg hlt]
      dsimp only
      by_cases hadm : k + 1 ≤ strictCraftLimiter.max
      · rw [if_pos (by simpa using hadm), if_pos hadm]
      · rw [if_neg (by simpa using hadm), if_neg hadm]
    simp only [craftSeq]
    rw [hstep]
    dsimp only
    have hc1 : assocGet
        ({ st with strictStore := assocSet st.strictStore client ⟨t0, k + 1⟩ } :
          ServerState).strictStore client = some ⟨t0, k + 1⟩ := by
      dsimp only
      exact assocGet_assocSet_self _ _ _
    rw [ih _ (k + 1) hc1 (fun x hx => hwin x (List.mem_cons_of_mem t hx))]
    dsimp only
    rw [assocSet_assocSet]
    refine Prod.ext ?_ ?_
    · dsimp only
      have : k + 1 + ts.length = k + (t :: ts).length := by
        simp [List.length_cons]
        omega
      rw [this]
    · dsimp only
      rw [List.length_cons, List.range'_succ, List.map_cons]

/-- Claim C2 (the strict tier is modelled from the spec's rate-limiter
algorithm, the `express-rate-limit` dependency being outside the
repository): eleven craft requests from one fresh client inside one
60-second strict window are answered by ten handler responses (all 200
when the upstream succeeds) followed by a 429 carrying the strict tier's
fixed message, while the discovery map, the general-tier store and every
other client's strict window state are untouched. -/
theorem craft_rate_limit_eleven (st : ServerState) (client : String) (apiKey : Option String)
    (item1 item2 : Option JSVal) (up : Upstream) (t1 : Nat) (rest : List Nat)
    (resp : HttpResp) (calls : Nat)
    (hfresh : assocGet st.strictStore client = none)
    (hlen : rest.length = 10)
    (hwin : ∀ t ∈ rest, t - t1 < strictCraftLimiter.windowMs)
    (hup : craftHandler apiKey item1 item2 up = (resp, calls))
    (hok : resp.status = 200) :
    (craftSeq st client apiKey item1 item2 up (t1 :: rest)).2 =
      List.replicate 10 (resp, calls) ++
        [(⟨429, errObj "Crafting too fast! Please wait a moment."⟩, 0)] ∧
    ((craftSeq st client apiKey item1 item2 up (t1 :: rest)).2.map fun r => r.1.status) =
      List.replicate 10 200 ++ [429] ∧
    (craftSeq st client apiKey item1 item2 up (t1 :: rest)).1.discoveryTracker =
      st.discoveryTracker ∧
    (craftSeq st client apiKey item1 item2 up (t1 :: rest)).1.generalStore =
      st.generalStore ∧
    (∀ c, c ≠ client →
      assocGet (craftSeq st client apiKey item1 item2 up (t1 :: rest)).1.strictStore c =
        assocGet st.strictStore c) := by
  have hstep1 : craftRoute st client t1 apiKey item1 item2 up =
      ({ st with strictStore := assocSet st.strictStore client ⟨t1, 1⟩ },
       craftHandler apiKey item1 item2 up) := by
    unfold craftRoute rateAdmit
    dsimp only
    rw [hfresh]
    dsimp only [Option.getD]
    rw [Nat.sub_self]
    rw [if_neg (by decide : ¬(0 ≥ strictCraftLimiter.windowMs))]
    dsimp only
    rw [if_pos (by decide : (decide (0 + 1 ≤ strictCraftLimiter.max)) = true)]
  have hc1 : assocGet
      ({ st with strictStore := assocSet st.strictStore client ⟨t1, 1⟩ } :
        ServerState).strictStore client = some ⟨t1, 1⟩ := by
    dsimp only
    exact assocGet_assocSet_self _ _ _
  have hseq := craftSeq_in_window client apiKey item1 item2 up t1 rest _ 1 hc1 hwin
  have hfull : craftSeq st client apiKey item1 item2 up (t1 :: rest) =
      ({ st with strictStore := assocSet st.strictStore client ⟨t1, 1 + rest.length⟩ },
       (resp, calls) :: (List.range' 2 rest.length).map (fun j =>
         if j ≤ strictCraftLimiter.max then (resp, calls)
         else (⟨429, errObj strictCraftLimiter.message⟩, 0))) := by
    simp only [craftSeq]
    rw [hstep1]
    dsimp only
    rw [hseq]
    dsimp only
    rw [assocSet_assocSet, hup]
  have hA : (craftSeq st client apiKey item1 item2 up (t1 :: rest)).2 =
      List.replicate 10 (resp, calls) ++
        [(⟨429, errObj "Crafting too fast! Please wait a moment."⟩, 0)] := by
    rw [hfull]
    dsimp only
    rw [hlen]
    rfl
  refine ⟨hA, ?_, ?_, ?_, ?_⟩
  · rw [hA]
    simp [hok]
  · rw [hfull]
  · rw [hfull]
  · intro c hc
    rw [hfull]
    dsimp only
    exact assocGet_assocSet_ne _ _ _ _ hc

/-- Claim C2 witness: a concrete run of eleven requests from one client
at times inside one strict window, with a concrete successful upstream,
yields ten 200 responses and a final 429 with the strict message. -/
theorem craft_rate_limit_eleven_witness :
    (craftSeq ⟨[], [], []⟩ "203.0.113.7" (some "key") (some (.str "Water"))
        (some (.str "Fire"))
        ⟨200, true, "```json\n\x7b\"name\":\"Steam\",\"emoji\":\"💨🔥\"\x7d\n```"⟩
        (0 :: List.replicate 10 5)).2.map (fun r => r.1.status) =
      List.replicate 10 200 ++ [429] :=
  (craft_rate_limit_eleven ⟨[], [], []⟩ "203.0.113.7" (some "key") (some (.str "Water"))
      (some (.str "Fire"))
      ⟨200, true, "```json\n\x7b\"name\":\"Steam\",\"emoji\":\"💨🔥\"\x7d\n```"⟩
      0 (List.replicate 10 5)
      ⟨200, .obj [("name", .str "Steam"), ("emoji", .str "💨")]⟩ 1
      rfl (by decide) (by decide) rfl rfl).2.1

end Proxy
